import Mathlib

/-!
Shallow embedding of `GUI/launcher.py` (StreamingCommunity GUI launcher).

The launcher is a linear pipeline: detect `uv` → ensure a virtual
environment exists → install two requirements manifests → spawn the Django
server → sleep, open a browser → wait for the child (with a
KeyboardInterrupt handler around the blocking wait).

External effects are modelled by an oracle (`World`): outcomes of
`subprocess.run` invocations, the filesystem, the platform string,
`os.environ`, the timing of an operator interrupt, the browser-open result
and the child's own exit code.  Each function returns its Python return
value (or the exception that escapes it) together with the ordered trace
of external effects it performed.
-/

namespace Launcher

/-- Filesystem paths, as lists of components (`pathlib.Path` segments). -/
abbrev FsPath := List String

/-- Python `str()` of a path: components joined by the separator. -/
def pathStr (p : FsPath) : String := String.intercalate "/" p

/-- Configuration `PROJECT_ROOT = Path(__file__).parent.parent.resolve()`. -/
def PROJECT_ROOT : FsPath := ["PROJECT_ROOT"]

/-- Configuration `GUI_DIR = PROJECT_ROOT / "GUI"`. -/
def GUI_DIR : FsPath := PROJECT_ROOT ++ ["GUI"]

/-- Configuration `VENV_DIR = PROJECT_ROOT / ".venv"`. -/
def VENV_DIR : FsPath := PROJECT_ROOT ++ [".venv"]

/-- Configuration `REQUIREMENTS_ROOT = PROJECT_ROOT / "requirements.txt"`. -/
def REQUIREMENTS_ROOT : FsPath := PROJECT_ROOT ++ ["requirements.txt"]

/-- Configuration `REQUIREMENTS_GUI = GUI_DIR / "requirements.txt"`. -/
def REQUIREMENTS_GUI : FsPath := GUI_DIR ++ ["requirements.txt"]

/-- Outcome of one `subprocess.run` invocation: the executable was not
found (`FileNotFoundError`) or it ran and exited with the given status. -/
inductive RunOutcome where
  | notFound : RunOutcome
  | exit : Nat → RunOutcome
deriving DecidableEq, Repr

/-- What may sit at a filesystem path.  `Path.exists()` only tests
presence; the payload (ordinary file, or a directory that may or may not
actually contain an interpreter) is never inspected by the launcher. -/
inductive FsEntry where
  | file : FsEntry
  | dir : Bool → FsEntry
deriving DecidableEq, Repr

/-- When (if at all) the single operator interrupt (SIGINT /
`KeyboardInterrupt`) is delivered, relative to the server-launch phase. -/
inductive InterruptAt where
  | never : InterruptAt
  | duringSleep : InterruptAt
  | duringBrowserOpen : InterruptAt
  | duringWait : InterruptAt
deriving DecidableEq, Repr

/-- Exceptions that can escape a step uncaught. -/
inductive Exn where
  | fileNotFound : Exn
  | keyboardInterrupt : Exn
deriving DecidableEq, Repr

/-- Observable external effects, in program order.  `run` is a blocking
`subprocess.run` (with its optional `cwd`); `popen` is the non-blocking
`subprocess.Popen` spawn and records the `PATH` value handed to the child;
`warn` is the missing-manifest warning; `waitChild` records the exit code
returned by a completed `wait()`. -/
inductive Event where
  | run : List String → Option FsPath → Event
  | warn : String → Event
  | popen : List String → FsPath → String → Event
  | sleep : Nat → Event
  | browserOpen : String → Event
  | terminate : Event
  | waitChild : Int → Event
deriving DecidableEq, Repr

/-- Environment-variable maps (`os.environ` and the child's `env`). -/
abbrev EnvMap := String → Option String

/-- Assignment `env[k] = v`. -/
def envSet (e : EnvMap) (k v : String) : EnvMap :=
  fun k' => if k' = k then some v else e k'

/-- The ambient OS state the launcher reads, and the outcomes of the
external calls it makes. -/
structure World where
  runResult : List String → RunOutcome
  fs : FsPath → Option FsEntry
  sysExecutable : String
  platform : String
  osEnviron : EnvMap
  interrupt : InterruptAt
  browserOk : Bool
  childExit : Int

/-- Function `check_uv`: `subprocess.run(["uv", "--version"], ..., check=True)`
returns `True`; `CalledProcessError` (non-zero exit) and
`FileNotFoundError` both return `False`. -/
def check_uv (w : World) : Bool :=
  match w.runResult ["uv", "--version"] with
  | .notFound => false
  | .exit 0 => true
  | .exit (_ + 1) => false

/-- Result of a `subprocess.run(..., check=True)` wrapped in
`except subprocess.CalledProcessError: return False` (the pattern used by
`create_venv` and `install_requirements`): exit 0 means the happy path
continues (`True`), non-zero means the handler returns `False`, and a
missing executable raises `FileNotFoundError` uncaught. -/
def runCheckCall (o : RunOutcome) : Except Exn Bool :=
  match o with
  | .notFound => .error .fileNotFound
  | .exit 0 => .ok true
  | .exit (_ + 1) => .ok false

/-- The argv used by `create_venv` to materialize the environment. -/
def venvArgv (w : World) (use_uv : Bool) : List String :=
  if use_uv then ["uv", "venv", pathStr VENV_DIR]
  else [w.sysExecutable, "-m", "venv", pathStr VENV_DIR]

/-- Function `create_venv`: if `VENV_DIR.exists()` the step prints a success line
and returns `True` without invoking any tool; otherwise it runs the
selected creation tool, mapping exit 0 to `True` and a non-zero exit to
`False`. -/
def create_venv (w : World) (use_uv : Bool) : Except Exn Bool × List Event :=
  if (w.fs VENV_DIR).isSome then
    (.ok true, [])
  else
    (runCheckCall (w.runResult (venvArgv w use_uv)), [.run (venvArgv w use_uv) none])

/-- Function `get_python_executable`: `bin/python` on darwin, `Scripts/python.exe`
otherwise. -/
def get_python_executable (platform : String) : FsPath :=
  if platform = "darwin" then VENV_DIR ++ ["bin", "python"]
  else VENV_DIR ++ ["Scripts", "python.exe"]

/-- The argv used by `install_requirements` for one manifest. -/
def installArgv (use_uv : Bool) (python_exe req_file : FsPath) : List String :=
  if use_uv then ["uv", "pip", "install", "-r", pathStr req_file]
  else [pathStr python_exe, "-m", "pip", "install", "-r", pathStr req_file]

/-- The `cwd` passed with the installer invocation (`cwd=PROJECT_ROOT`
only on the uv branch). -/
def installCwd (use_uv : Bool) : Option FsPath :=
  if use_uv then some PROJECT_ROOT else none

/-- The body of `install_requirements`' `for` loop over the remaining
`(req_file, name)` pairs: a missing manifest warns and continues; a
present one is installed, where exit 0 continues, a non-zero exit returns
`False` at once, and a missing executable raises uncaught. -/
def installLoop (w : World) (use_uv : Bool) (python_exe : FsPath) :
    List (FsPath × String) → Except Exn Bool × List Event
  | [] => (.ok true, [])
  | (req_file, name) :: rest =>
    if (w.fs req_file).isSome = false then
      let r := installLoop w use_uv python_exe rest
      (r.1, .warn name :: r.2)
    else
      match runCheckCall (w.runResult (installArgv use_uv python_exe req_file)) with
      | .error ex => (.error ex, [.run (installArgv use_uv python_exe req_file) (installCwd use_uv)])
      | .ok false => (.ok false, [.run (installArgv use_uv python_exe req_file) (installCwd use_uv)])
      | .ok true =>
        let r := installLoop w use_uv python_exe rest
        (r.1, .run (installArgv use_uv python_exe req_file) (installCwd use_uv) :: r.2)

/-- The static manifest list `[(REQUIREMENTS_ROOT, "root"), (REQUIREMENTS_GUI, "GUI")]`. -/
def manifestList : List (FsPath × String) :=
  [(REQUIREMENTS_ROOT, "root"), (REQUIREMENTS_GUI, "GUI")]

/-- Function `install_requirements`: run the loop over the static manifest list
with the venv interpreter. -/
def install_requirements (w : World) (use_uv : Bool) : Except Exn Bool × List Event :=
  installLoop w use_uv (get_python_executable w.platform) manifestList

/-- The fixed URL opened in the browser. -/
def serverURL : String := "http://127.0.0.1:8462"

/-- The host:port the server child is told to bind. -/
def bindAddr : String := "127.0.0.1:8462"

/-- The argv of the `subprocess.Popen` server spawn:
`[str(python_exe), "manage.py", "runserver", "127.0.0.1:8462"]`. -/
def serverArgv (w : World) : List String :=
  [pathStr (get_python_executable w.platform), "manage.py", "runserver", bindAddr]

/-- The child's environment: `env = os.environ.copy()` followed by
`env["PATH"] = str(VENV_DIR / "bin") + ":" + env.get("PATH", "")`. -/
def child_env (penv : EnvMap) : EnvMap :=
  envSet penv "PATH" (pathStr (VENV_DIR ++ ["bin"]) ++ ":" ++ ((penv "PATH").getD ""))

/-- Result of `start_server`: the Python return (or escaping exception),
the effect trace, and `os.environ` after the call (the function only
copies it; no statement assigns to it). -/
structure SSOut where
  result : Except Exn Unit
  events : List Event
  osEnvAfter : EnvMap

/-- Function `start_server`: spawn the server with `Popen` (argv from the venv
interpreter, `cwd=GUI_DIR`, env from `child_env`), `time.sleep(2)`,
`webbrowser.open` the fixed URL, then `server_process.wait()`.  Only the
blocking `wait()` sits inside `try/except KeyboardInterrupt`; an
interrupt during the sleep or the browser call escapes uncaught.  The
handler calls `terminate()` once and waits again. -/
def start_server (w : World) : SSOut :=
  let pathVar := (child_env w.osEnviron "PATH").getD ""
  match w.interrupt with
  | .duringSleep =>
      { result := .error .keyboardInterrupt
        events := [.popen (serverArgv w) GUI_DIR pathVar]
        osEnvAfter := w.osEnviron }
  | .duringBrowserOpen =>
      { result := .error .keyboardInterrupt
        events := [.popen (serverArgv w) GUI_DIR pathVar, .sleep 2]
        osEnvAfter := w.osEnviron }
  | .duringWait =>
      { result := .ok ()
        events := [.popen (serverArgv w) GUI_DIR pathVar, .sleep 2,
                   .browserOpen serverURL, .terminate, .waitChild w.childExit]
        osEnvAfter := w.osEnviron }
  | .never =>
      { result := .ok ()
        events := [.popen (serverArgv w) GUI_DIR pathVar, .sleep 2,
                   .browserOpen serverURL, .waitChild w.childExit]
        osEnvAfter := w.osEnviron }

/-- Shell-observed exit status when an exception escapes `main` uncaught:
an unhandled `FileNotFoundError` makes CPython print a traceback and end
the process with status 1, while an unhandled `KeyboardInterrupt` makes
CPython (3.8 and later) restore the default SIGINT handler and re-deliver
the signal to itself, so the process dies by signal 2 and its parent
observes status 128 + 2 = 130. -/
def exnExitStatus : Exn → Nat
  | .fileNotFound => 1
  | .keyboardInterrupt => 130

/-- Function `main`: `use_uv = check_uv()`; `sys.exit(1)` when `create_venv` or
`install_requirements` returns `False`; otherwise `start_server()`.  An
exception escaping a step ends the process with `exnExitStatus` (status 1
for a `FileNotFoundError` traceback; death by self-re-delivered SIGINT,
observed as 130, for an unhandled `KeyboardInterrupt`).  Returns the
shell-observed exit status and the effect trace. -/
def main (w : World) : Nat × List Event :=
  let use_uv := check_uv w
  let cv := create_venv w use_uv
  match cv.1 with
  | .error ex => (exnExitStatus ex, cv.2)
  | .ok false => (1, cv.2)
  | .ok true =>
    let ir := install_requirements w use_uv
    match ir.1 with
    | .error ex => (exnExitStatus ex, cv.2 ++ ir.2)
    | .ok false => (1, cv.2 ++ ir.2)
    | .ok true =>
      let ss := start_server w
      match ss.result with
      | .error ex => (exnExitStatus ex, cv.2 ++ ir.2 ++ ss.events)
      | .ok _ => (0, cv.2 ++ ir.2 ++ ss.events)

/-- Is an event a blocking `subprocess.run` invocation? -/
def isRunEvent : Event → Bool
  | .run _ _ => true
  | _ => false

/-- Is an event the non-blocking server spawn? -/
def isPopenEvent : Event → Bool
  | .popen _ _ _ => true
  | _ => false

/-- Does a trace contain the server spawn? -/
def hasLaunch (tr : List Event) : Bool := tr.any isPopenEvent

/-- Does an invocation event call the accelerant tool (`uv` as argv head)? -/
def toolUsesUv : Event → Bool
  | .run a _ => a.headD "" == "uv"
  | .popen a _ _ => a.headD "" == "uv"
  | _ => false

/-- No event of the trace invokes `uv`. -/
def nonUvTrace (tr : List Event) : Bool := tr.all fun e => !(toolUsesUv e)

/-- Every blocking tool invocation of the trace calls `uv`. -/
def runEventsUseUv (tr : List Event) : Bool :=
  tr.all fun e => !(isRunEvent e) || toolUsesUv e

/-- A concrete ambient state where everything succeeds: `uv` answers its
version check, the venv directory and both manifests exist, every tool
exits 0, no interrupt arrives. -/
def wAll : World :=
  { runResult := fun _ => .exit 0
    fs := fun _ => some (.dir true)
    sysExecutable := "/usr/bin/python3"
    platform := "darwin"
    osEnviron := fun k => if k = "PATH" then some "/usr/bin" else
      if k = "HOME" then some "/root" else none
    interrupt := .never
    browserOk := true
    childExit := 0 }

/-- Like `wAll` but the operator interrupt lands during `time.sleep(2)`,
after the server spawn and before the guarded wait. -/
def wIntrSleep : World := { wAll with interrupt := .duringSleep }

/-- Like `wAll` but the interrupt lands inside the guarded
`server_process.wait()`, and the child's own exit code is 7. -/
def wIntrWait : World := { wAll with interrupt := .duringWait, childExit := 7 }

/-- The venv interpreter path on darwin, used to pin installer argvs in
concrete worlds. -/
def pyExeDarwin : FsPath := get_python_executable "darwin"

/-- A concrete ambient state where `uv` is absent: its version check
raises `FileNotFoundError`, the venv directory is absent (so the standard
creation tool runs), both manifests exist, every other tool exits 0. -/
def wNoUv : World :=
  { wAll with
    runResult := fun a => if a = ["uv", "--version"] then .notFound else .exit 0
    fs := fun p => if p = VENV_DIR then none else some .file }

/-- A concrete ambient state where an ordinary file (not a directory, no
interpreter inside) sits at the venv path. -/
def wFileVenv : World :=
  { wAll with fs := fun p => if p = VENV_DIR then some .file else some (.dir true) }

/-- A concrete ambient state for the install loop: the root manifest is
missing, the GUI manifest exists, and the standard installer exits 1 on
the GUI manifest. -/
def wSkipAbort : World :=
  { wAll with
    runResult := fun a =>
      if a = installArgv false pyExeDarwin REQUIREMENTS_GUI then .exit 1 else .exit 0
    fs := fun p => if p = REQUIREMENTS_ROOT then none else some .file }

/-! ### Structural lemmas about the traces each step can produce -/

theorem mem_create_venv (w : World) (u : Bool) (e : Event)
    (h : e ∈ (create_venv w u).2) : e = .run (venvArgv w u) none := by
  unfold create_venv at h
  split at h
  · simp at h
  · simpa using h

theorem mem_installLoop (w : World) (u : Bool) (px : FsPath)
    (L : List (FsPath × String)) :
    ∀ e ∈ (installLoop w u px L).2,
      (∃ nm, e = Event.warn nm)
      ∨ (∃ rq, e = Event.run (installArgv u px rq) (installCwd u)) := by
  induction L with
  | nil => intro e he; simp [installLoop] at he
  | cons hd tl ih =>
    obtain ⟨rq, nm⟩ := hd
    intro e he
    simp only [installLoop] at he
    split at he
    · rcases List.mem_cons.mp he with h1 | h2
      · exact Or.inl ⟨nm, h1⟩
      · exact ih e h2
    · split at he
      · exact Or.inr ⟨rq, List.mem_singleton.mp he⟩
      · exact Or.inr ⟨rq, List.mem_singleton.mp he⟩
      · rcases List.mem_cons.mp he with h1 | h2
        · exact Or.inr ⟨rq, h1⟩
        · exact ih e h2

theorem mem_start_server (w : World) (e : Event)
    (h : e ∈ (start_server w).events) :
    e = .popen (serverArgv w) GUI_DIR ((child_env w.osEnviron "PATH").getD "")
    ∨ e = .sleep 2 ∨ e = .browserOpen serverURL
    ∨ e = .terminate ∨ e = .waitChild w.childExit := by
  cases hi : w.interrupt <;> simp [start_server, hi] at h <;> tauto

theorem main_trace_shape (w : World) :
    (main w).2 = (create_venv w (check_uv w)).2
    ∨ (main w).2
        = (create_venv w (check_uv w)).2 ++ (install_requirements w (check_uv w)).2
    ∨ (main w).2
        = (create_venv w (check_uv w)).2 ++ (install_requirements w (check_uv w)).2
            ++ (start_server w).events := by
  rcases hc : (create_venv w (check_uv w)).1 with ex | b
  · exact Or.inl (by simp [main, hc])
  · cases b
    · exact Or.inl (by simp [main, hc])
    · rcases hi : (install_requirements w (check_uv w)).1 with ex | b2
      · exact Or.inr (Or.inl (by simp [main, hc, hi]))
      · cases b2
        · exact Or.inr (Or.inl (by simp [main, hc, hi]))
        · rcases hs : (start_server w).result with ex | u
          · exact Or.inr (Or.inr (by simp [main, hc, hi, hs]))
          · exact Or.inr (Or.inr (by simp [main, hc, hi, hs]))

theorem mem_main (w : World) (e : Event) (h : e ∈ (main w).2) :
    e ∈ (create_venv w (check_uv w)).2
    ∨ e ∈ (install_requirements w (check_uv w)).2
    ∨ e ∈ (start_server w).events := by
  rcases main_trace_shape w with hm | hm | hm <;> rw [hm] at h
  · exact Or.inl h
  · rcases List.mem_append.mp h with h1 | h1
    · exact Or.inl h1
    · exact Or.inr (Or.inl h1)
  · rcases List.mem_append.mp h with h1 | h1
    · rcases List.mem_append.mp h1 with h2 | h2
      · exact Or.inl h2
      · exact Or.inr (Or.inl h2)
    · exact Or.inr (Or.inr h1)

theorem hasLaunch_create_venv (w : World) (u : Bool) :
    hasLaunch (create_venv w u).2 = false := by
  unfold create_venv hasLaunch
  split
  · rfl
  · rfl

theorem hasLaunch_installLoop (w : World) (u : Bool) (px : FsPath)
    (L : List (FsPath × String)) :
    hasLaunch (installLoop w u px L).2 = false := by
  induction L with
  | nil => rfl
  | cons hd tl ih =>
    obtain ⟨rq, nm⟩ := hd
    simp only [installLoop, hasLaunch] at ih ⊢
    split
    · simp [List.any_cons, isPopenEvent, ih]
    · split <;> simp [List.any_cons, isPopenEvent, ih]

theorem hasLaunch_append (a b : List Event) :
    hasLaunch (a ++ b) = (hasLaunch a || hasLaunch b) := by
  simp [hasLaunch, List.any_append]

theorem pyexe_headD_ne_uv (p : String) :
    (pathStr (get_python_executable p) == "uv") = false := by
  unfold get_python_executable
  split <;> decide

theorem start_server_result_ok (w : World) :
    (start_server w).result = .ok ()
      ↔ (w.interrupt = .never ∨ w.interrupt = .duringWait) := by
  cases hi : w.interrupt <;> simp [start_server, hi]

theorem runCheckCall_error (o : RunOutcome) (ex : Exn)
    (h : runCheckCall o = .error ex) : ex = .fileNotFound := by
  cases o with
  | notFound => simpa [runCheckCall] using h.symm
  | exit n =>
    cases n with
    | zero => simp [runCheckCall] at h
    | succ k => simp [runCheckCall] at h

theorem create_venv_error (w : World) (u : Bool) (ex : Exn)
    (h : (create_venv w u).1 = .error ex) : ex = .fileNotFound := by
  unfold create_venv at h
  split at h
  · simp at h
  · exact runCheckCall_error _ ex h

theorem installLoop_error (w : World) (u : Bool) (px : FsPath)
    (L : List (FsPath × String)) :
    ∀ ex : Exn, (installLoop w u px L).1 = .error ex → ex = .fileNotFound := by
  induction L with
  | nil => intro ex h; simp [installLoop] at h
  | cons hd tl ih =>
    obtain ⟨rq, nm⟩ := hd
    intro ex h
    simp only [installLoop] at h
    split at h
    · exact ih ex h
    · rcases ho : w.runResult (installArgv u px rq) with _ | n
      · rw [ho] at h
        simpa [runCheckCall] using h.symm
      · rw [ho] at h
        cases n with
        | zero => exact ih ex (by simpa [runCheckCall] using h)
        | succ k => simp [runCheckCall] at h

/-! ### Claim theorems -/

/-- Claim C1: the server-launch step spawns (non-blocking `popen`, the
first event of the launch step) an invocation headed by the interpreter
from inside the environment directory, with working directory the GUI
directory and the environment's `bin` directory prepended to the child's
`PATH`; on every platform both the interpreter path and the prepended
binary directory lie inside the same environment directory `VENV_DIR`. -/
theorem C1_server_launch (w : World) :
    (start_server w).events.head?
      = some (.popen (serverArgv w) GUI_DIR ((child_env w.osEnviron "PATH").getD ""))
    ∧ (serverArgv w).head? = some (pathStr (get_python_executable w.platform))
    ∧ VENV_DIR.isPrefixOf (get_python_executable w.platform) = true
    ∧ VENV_DIR.isPrefixOf (VENV_DIR ++ ["bin"]) = true
    ∧ child_env w.osEnviron "PATH"
        = some (pathStr (VENV_DIR ++ ["bin"]) ++ ":" ++ ((w.osEnviron "PATH").getD "")) := by
  refine ⟨?_, rfl, ?_, by decide, by simp [child_env, envSet]⟩
  · cases hi : w.interrupt <;> simp [start_server, hi]
  · unfold get_python_executable
    split <;> decide

/-- Claim C7: when the environment directory already exists, `create_venv`
invokes no creation tool (empty effect trace) and reports success, so
repeated runs never recreate an existing environment. -/
theorem C7_venv_idempotent (w : World) (use_uv : Bool)
    (h : (w.fs VENV_DIR).isSome = true) :
    create_venv w use_uv = (.ok true, []) := by
  unfold create_venv
  simp [h]

/-- Witness for C7 at the concrete world `wAll`, whose venv directory exists. -/
theorem C7_venv_idempotent_witness :
    (wAll.fs VENV_DIR).isSome = true ∧ create_venv wAll true = (.ok true, []) :=
  ⟨rfl, C7_venv_idempotent wAll true rfl⟩

/-- Claim C10: the existence check accepts any filesystem entry at the
environment path — an ordinary file or a directory with no interpreter
inside just as well as a complete environment — and `create_venv` then
returns success without invoking any tool or validating the entry. -/
theorem C10_venv_check_any_entry (w : World) (use_uv : Bool) (entry : FsEntry)
    (h : w.fs VENV_DIR = some entry) :
    create_venv w use_uv = (.ok true, []) := by
  unfold create_venv
  simp [h]

/-- Witness for C10 at a world with an ordinary file at the venv path. -/
theorem C10_venv_check_any_entry_witness :
    wFileVenv.fs VENV_DIR = some .file
    ∧ create_venv wFileVenv false = (.ok true, []) :=
  ⟨rfl, C10_venv_check_any_entry wFileVenv false .file rfl⟩

/-- Claim C9: the child environment is the parent map with only the
search-path variable rebound (copy-then-update, never a mutation of the
parent): `os.environ` after the launch step equals its value before, the
child's `PATH` is the venv `bin` directory prepended to the parent's, and
at every other key the child's environment equals the parent's. -/
theorem C9_child_env_frame (w : World) :
    (start_server w).osEnvAfter = w.osEnviron
    ∧ child_env w.osEnviron "PATH"
        = some (pathStr (VENV_DIR ++ ["bin"]) ++ ":" ++ ((w.osEnviron "PATH").getD ""))
    ∧ ∀ k, k ≠ "PATH" → child_env w.osEnviron k = w.osEnviron k := by
  refine ⟨?_, by simp [child_env, envSet], fun k hk => by simp [child_env, envSet, hk]⟩
  cases hi : w.interrupt <;> simp [start_server, hi]

/-- Witness for C9 at the concrete world `wAll`: the child's `HOME` equals
the parent's, and its `PATH` is the prepended value. -/
theorem C9_child_env_frame_witness :
    child_env wAll.osEnviron "HOME" = wAll.osEnviron "HOME"
    ∧ child_env wAll.osEnviron "PATH" = some "PROJECT_ROOT/.venv/bin:/usr/bin" :=
  ⟨(C9_child_env_frame wAll).2.2 "HOME" (by decide), (C9_child_env_frame wAll).2.1⟩

/-- Claim C8: in a run the operator does not interrupt before the guarded
wait, the launch step spawns the server, sleeps exactly 2 time-units, then
asks the OS to open `http://127.0.0.1:8462` — the scheme prefix plus the
very host:port passed to the server child as its bind address — and the
outcome of the browser request has no effect on the rest of the run. -/
theorem C8_browser_open (w : World)
    (h : w.interrupt = .never ∨ w.interrupt = .duringWait) :
    (start_server w).events.take 3
      = [.popen (serverArgv w) GUI_DIR ((child_env w.osEnviron "PATH").getD ""),
         .sleep 2, .browserOpen serverURL]
    ∧ (start_server w).result = .ok ()
    ∧ serverURL = "http://" ++ bindAddr
    ∧ (serverArgv w).getLast? = some bindAddr
    ∧ start_server { w with browserOk := true } = start_server { w with browserOk := false } := by
  rcases h with h | h <;>
    exact ⟨by simp [start_server, h], by simp [start_server, h], rfl, rfl, by cases w; rfl⟩

/-- Witness for C8 at the concrete world `wAll` (no interrupt). -/
theorem C8_browser_open_witness :
    (wAll.interrupt = .never ∨ wAll.interrupt = .duringWait)
    ∧ (start_server wAll).events.take 3
        = [.popen (serverArgv wAll) GUI_DIR "PROJECT_ROOT/.venv/bin:/usr/bin",
           .sleep 2, .browserOpen serverURL] :=
  ⟨Or.inl rfl, (C8_browser_open wAll (Or.inl rfl)).1⟩

/-- Claim C2: in the install loop over any manifest list, an entry whose
file is absent yields exactly a warning prepended to the processing of the
remaining entries (never an abort), while a non-zero installer exit on a
present file returns failure at once, its invocation being the whole
remaining trace — no later manifest is processed; and the install step is
this loop over the static two-manifest list. -/
theorem C2_install_skip_and_abort (w : World) (use_uv : Bool)
    (python_exe req_file : FsPath) (name : String)
    (rest : List (FsPath × String)) :
    ((w.fs req_file).isSome = false →
      installLoop w use_uv python_exe ((req_file, name) :: rest)
        = ((installLoop w use_uv python_exe rest).1,
           .warn name :: (installLoop w use_uv python_exe rest).2))
    ∧ (∀ k : Nat, (w.fs req_file).isSome = true →
        w.runResult (installArgv use_uv python_exe req_file) = .exit (k + 1) →
        installLoop w use_uv python_exe ((req_file, name) :: rest)
          = (.ok false, [.run (installArgv use_uv python_exe req_file) (installCwd use_uv)]))
    ∧ install_requirements w use_uv
        = installLoop w use_uv (get_python_executable w.platform) manifestList := by
  refine ⟨fun h => ?_, fun k h1 h2 => ?_, rfl⟩
  · simp [installLoop, h]
  · simp [installLoop, h1, h2, runCheckCall]

/-- Witness for C2 at the concrete world `wSkipAbort`: the root manifest
is missing and skipped, the GUI manifest is present and its installer
exits 1, aborting with no further processing. -/
theorem C2_install_skip_and_abort_witness :
    (wSkipAbort.fs REQUIREMENTS_ROOT).isSome = false
    ∧ (wSkipAbort.fs REQUIREMENTS_GUI).isSome = true
    ∧ wSkipAbort.runResult (installArgv false pyExeDarwin REQUIREMENTS_GUI) = .exit 1
    ∧ installLoop wSkipAbort false pyExeDarwin manifestList
        = ((installLoop wSkipAbort false pyExeDarwin [(REQUIREMENTS_GUI, "GUI")]).1,
           .warn "root" :: (installLoop wSkipAbort false pyExeDarwin [(REQUIREMENTS_GUI, "GUI")]).2)
    ∧ installLoop wSkipAbort false pyExeDarwin [(REQUIREMENTS_GUI, "GUI")]
        = (.ok false, [.run (installArgv false pyExeDarwin REQUIREMENTS_GUI) (installCwd false)]) :=
  ⟨rfl, rfl, rfl,
   (C2_install_skip_and_abort wSkipAbort false pyExeDarwin REQUIREMENTS_ROOT "root"
      [(REQUIREMENTS_GUI, "GUI")]).1 rfl,
   (C2_install_skip_and_abort wSkipAbort false pyExeDarwin REQUIREMENTS_GUI "GUI" []).2.1
      0 rfl rfl⟩

/-- Counterexample to claim C3: in the concrete world `wIntrSleep` the
environment step and the install step both succeed and the operator
interrupt is delivered after the server spawn (during the fixed sleep);
the `KeyboardInterrupt` escapes the handler and the process dies by the
re-delivered SIGINT (shell-observed status 130) — neither a setup failure
nor the status-0 exit the claim promises for an operator-initiated
shutdown. -/
theorem C3_exit_status_cex :
    (create_venv wIntrSleep (check_uv wIntrSleep)).1 = .ok true
    ∧ (install_requirements wIntrSleep (check_uv wIntrSleep)).1 = .ok true
    ∧ (main wIntrSleep).1 = 130 :=
  ⟨rfl, rfl, rfl⟩

/-- Claim C3 as amended: the entry operation exits with status 1 exactly
when environment creation fails or dependency installation fails; it
exits with status 0 on graceful completion and on an operator interrupt
delivered during the guarded blocking wait; but an interrupt delivered
after the server spawn and before that wait escapes the handler, and the
process is killed by the re-delivered SIGINT — shell-observed status 130,
not a status-0 exit. -/
theorem C3_exit_status_amended (w : World) :
    ((main w).1 = 1 ↔
      ((create_venv w (check_uv w)).1 ≠ .ok true
        ∨ (install_requirements w (check_uv w)).1 ≠ .ok true))
    ∧ ((main w).1 = 0 ↔
      ((create_venv w (check_uv w)).1 = .ok true
        ∧ (install_requirements w (check_uv w)).1 = .ok true
        ∧ (w.interrupt = .never ∨ w.interrupt = .duringWait)))
    ∧ ((main w).1 = 130 ↔
      ((create_venv w (check_uv w)).1 = .ok true
        ∧ (install_requirements w (check_uv w)).1 = .ok true
        ∧ (w.interrupt = .duringSleep ∨ w.interrupt = .duringBrowserOpen))) := by
  rcases hc : (create_venv w (check_uv w)).1 with ex | b
  · obtain rfl := create_venv_error w (check_uv w) ex hc
    simp [main, hc, exnExitStatus]
  · cases b
    · simp [main, hc]
    · rcases hi : (install_requirements w (check_uv w)).1 with ex | b2
      · obtain rfl := installLoop_error w (check_uv w) (get_python_executable w.platform)
          manifestList ex (by simpa [install_requirements] using hi)
        simp [main, hc, hi, exnExitStatus]
      · cases b2
        · simp [main, hc, hi]
        · cases hint : w.interrupt <;>
            simp [main, hc, hi, start_server, hint, exnExitStatus]

/-- Counterexample to claim C4: in the concrete world `wIntrSleep` the
interrupt is delivered after the server process has been launched (during
the fixed sleep), yet no termination request at all is sent to the child,
and instead of exiting with status 0 the sequencer is killed by the
re-delivered SIGINT (shell-observed status 130). -/
theorem C4_terminate_cex :
    hasLaunch (start_server wIntrSleep).events = true
    ∧ (start_server wIntrSleep).events.count .terminate = 0
    ∧ (main wIntrSleep).1 = 130 :=
  ⟨rfl, rfl, rfl⟩

/-- Claim C4 as amended: when the interrupt is delivered while the
sequencer is blocked in the guarded wait on the child, exactly one
termination request is sent, the sequencer then blocks again until the
child exits, and (whatever the child's own exit code, which `w.childExit`
ranges over) the run completes with exit status 0. -/
theorem C4_interrupt_during_wait (w : World) (h : w.interrupt = .duringWait) :
    (start_server w).result = .ok ()
    ∧ (start_server w).events.count .terminate = 1
    ∧ (start_server w).events
        = [.popen (serverArgv w) GUI_DIR ((child_env w.osEnviron "PATH").getD ""),
           .sleep 2, .browserOpen serverURL, .terminate, .waitChild w.childExit]
    ∧ ((create_venv w (check_uv w)).1 = .ok true →
        (install_requirements w (check_uv w)).1 = .ok true →
        (main w).1 = 0) := by
  have he : (start_server w).events
      = [Event.popen (serverArgv w) GUI_DIR ((child_env w.osEnviron "PATH").getD ""),
         .sleep 2, .browserOpen serverURL, .terminate, .waitChild w.childExit] := by
    simp [start_server, h]
  refine ⟨by simp [start_server, h], by rw [he]; rfl, he, fun hc hi => ?_⟩
  simp [main, hc, hi, start_server, h]

/-- Witness for the amended C4 at the concrete world `wIntrWait`, whose
child exits with code 7 after being terminated. -/
theorem C4_interrupt_during_wait_witness :
    wIntrWait.interrupt = .duringWait
    ∧ (start_server wIntrWait).events.count .terminate = 1
    ∧ (main wIntrWait).1 = 0 :=
  ⟨rfl, (C4_interrupt_during_wait wIntrWait rfl).2.1,
   (C4_interrupt_during_wait wIntrWait rfl).2.2.2 rfl rfl⟩

/-- Claim C5: tool detection is never fatal and there is no tool mixing —
when the accelerant check fails the whole run's trace contains no `uv`
invocation at all, and in general every blocking tool invocation of a run
calls `uv` precisely when the single startup check succeeded. -/
theorem C5_tool_fallback (w : World) (h : w.sysExecutable ≠ "uv") :
    (check_uv w = false → nonUvTrace (main w).2 = true)
    ∧ (check_uv w = true → runEventsUseUv (main w).2 = true) := by
  constructor
  · intro hf
    rw [nonUvTrace, List.all_eq_true]
    intro e he
    rcases mem_main w e he with h1 | h1 | h1
    · rw [mem_create_venv w (check_uv w) e h1, hf]
      simp [toolUsesUv, venvArgv, beq_eq_false_iff_ne, h]
    · rcases mem_installLoop w (check_uv w) (get_python_executable w.platform)
          manifestList e (by simpa [install_requirements] using h1) with ⟨nm, rfl⟩ | ⟨rq, rfl⟩
      · simp [toolUsesUv]
      · rw [hf]
        simp [toolUsesUv, installArgv, pyexe_headD_ne_uv]
    · rcases mem_start_server w e h1 with rfl | rfl | rfl | rfl | rfl
      · simp [toolUsesUv, serverArgv, pyexe_headD_ne_uv]
      · rfl
      · rfl
      · rfl
      · rfl
  · intro ht
    rw [runEventsUseUv, List.all_eq_true]
    intro e he
    rcases mem_main w e he with h1 | h1 | h1
    · rw [mem_create_venv w (check_uv w) e h1, ht]
      simp [isRunEvent, toolUsesUv, venvArgv]
    · rcases mem_installLoop w (check_uv w) (get_python_executable w.platform)
          manifestList e (by simpa [install_requirements] using h1) with ⟨nm, rfl⟩ | ⟨rq, rfl⟩
      · rfl
      · rw [ht]
        simp [isRunEvent, toolUsesUv, installArgv]
    · rcases mem_start_server w e h1 with rfl | rfl | rfl | rfl | rfl <;> rfl

/-- Witness for C5 at the concrete world `wNoUv`, where the `uv` version
check raises `FileNotFoundError`: the whole run (standard venv creation,
two standard installs, server spawn) contains no `uv` invocation. -/
theorem C5_tool_fallback_witness :
    wNoUv.sysExecutable ≠ "uv"
    ∧ check_uv wNoUv = false
    ∧ nonUvTrace (main wNoUv).2 = true :=
  ⟨by decide, rfl, (C5_tool_fallback wNoUv (by decide)).1 rfl⟩

/-- Claim C6: the server spawn appears in a run's trace only if the
environment step and the install step both reported success — no
execution reaches the launch with either earlier step failed. -/
theorem C6_launch_after_setup (w : World)
    (h : hasLaunch (main w).2 = true) :
    (create_venv w (check_uv w)).1 = .ok true
    ∧ (install_requirements w (check_uv w)).1 = .ok true := by
  rcases hc : (create_venv w (check_uv w)).1 with ex | b
  · exfalso
    rw [show (main w).2 = (create_venv w (check_uv w)).2 from by simp [main, hc]] at h
    simp [hasLaunch_create_venv] at h
  · cases b
    · exfalso
      rw [show (main w).2 = (create_venv w (check_uv w)).2 from by simp [main, hc]] at h
      simp [hasLaunch_create_venv] at h
    · rcases hi : (install_requirements w (check_uv w)).1 with ex | b2
      · exfalso
        rw [show (main w).2 = (create_venv w (check_uv w)).2
              ++ (install_requirements w (check_uv w)).2 from by simp [main, hc, hi]] at h
        simp [hasLaunch_append, hasLaunch_create_venv, hasLaunch_installLoop,
          install_requirements] at h
      · cases b2
        · exfalso
          rw [show (main w).2 = (create_venv w (check_uv w)).2
                ++ (install_requirements w (check_uv w)).2 from by simp [main, hc, hi]] at h
          simp [hasLaunch_append, hasLaunch_create_venv, hasLaunch_installLoop,
            install_requirements] at h
        · exact ⟨rfl, rfl⟩

/-- Witness for C6 at the concrete world `wAll`, whose run launches the
server. -/
theorem C6_launch_after_setup_witness :
    hasLaunch (main wAll).2 = true
    ∧ (create_venv wAll (check_uv wAll)).1 = .ok true
    ∧ (install_requirements wAll (check_uv wAll)).1 = .ok true :=
  ⟨rfl, (C6_launch_after_setup wAll rfl).1, (C6_launch_after_setup wAll rfl).2⟩

end Launcher
